import Mathlib

/-!
Verification development for the MCP daemon subsystem of the DOTS repository
(directory YCLI/src): the request handler (mcp_daemon/handlers.py), the IPC
server lifecycle (mcp_daemon/server.py), the stdio connection manager
(mcp_daemon/stdio.py), and the daemon client with its connection pool
(daemon_client/main.py, daemon_client/models.py, daemon_client/connection_pool.py).

The Python code is shallowly embedded: every definition below mirrors one
Python function or class, keeping the source names.  JSON values are modelled
by the inductive type Json; Python None / absent dictionary entries are
modelled with Option; Python exceptions are modelled with Except.  Numeric
JSON literals are kept as their source text (the daemon protocol never
computes with them), and strings are sequences of Unicode scalar values.
-/

/-- JSON values as produced by the Python json module.  Objects carry their
key/value pairs; the parser below collapses duplicate keys the way a Python
dict comprehension does (last occurrence wins).  Numbers keep their literal
text, since no code under verification computes with numeric payloads. -/
inductive Json where
  | null : Json
  | bool : Bool → Json
  | num : String → Json
  | str : String → Json
  | arr : List Json → Json
  | obj : List (String × Json) → Json

/-- Python truthiness (bool(x)) for decoded JSON values: None, False, zero
numbers, empty strings, empty arrays and empty objects are falsy. -/
def Json.truthy : Json → Bool
  | .null => false
  | .bool b => b
  | .num lit =>
    -- a JSON number is zero iff every digit of its mantissa is 0
    let mantissa := lit.data.takeWhile (fun c => !(c == 'e') && !(c == 'E'))
    !(mantissa.all (fun c => !c.isDigit || c == '0'))
  | .str s => !(s == "")
  | .arr xs => !xs.isEmpty
  | .obj kvs => !kvs.isEmpty

/-- Python dict item assignment d[k] = v on an association list: replace the
value in place when the key is present, append otherwise. -/
def pySetItem {α : Type} (d : List (String × α)) (k : String) (v : α) :
    List (String × α) :=
  if d.any (fun p => p.1 == k) then
    d.map (fun p => if p.1 == k then (k, v) else p)
  else
    d ++ [(k, v)]

/-- Python dict lookup d.get(k) on an association list (first binding wins;
the lists built by pySetItem never hold a duplicate key). -/
def lookupStr {α : Type} (k : String) : List (String × α) → Option α
  | [] => none
  | p :: rest => if p.1 = k then some p.2 else lookupStr k rest

/-- Python dict.update(other): assign every pair of other into d in order. -/
def dict_update {α : Type} (d other : List (String × α)) : List (String × α) :=
  other.foldl (fun acc kv => pySetItem acc kv.1 kv.2) d

/-- Skip JSON whitespace (space, tab, newline, carriage return). -/
def json_ws : List Char → List Char
  | c :: rest =>
    if c == ' ' || c == '\t' || c == '\n' || c == '\r' then json_ws rest
    else c :: rest
  | [] => []

/-- Value of one hexadecimal digit. -/
def hexDigitVal (c : Char) : Option Nat :=
  if '0' ≤ c ∧ c ≤ '9' then some (c.toNat - '0'.toNat)
  else if 'a' ≤ c ∧ c ≤ 'f' then some (c.toNat - 'a'.toNat + 10)
  else if 'A' ≤ c ∧ c ≤ 'F' then some (c.toNat - 'A'.toNat + 10)
  else none

/-- Parse exactly four hexadecimal digits. -/
def parseHex4 : List Char → Option (Nat × List Char)
  | a :: b :: c :: d :: rest => do
    let x ← hexDigitVal a
    let y ← hexDigitVal b
    let z ← hexDigitVal c
    let w ← hexDigitVal d
    pure (((x * 16 + y) * 16 + z) * 16 + w, rest)
  | _ => none

/-- Parse the remainder of a JSON string literal (after the opening quote),
returning the decoded characters and the input following the closing quote.
Escape sequences follow RFC 8259 as implemented by json.loads; surrogate
pairs in \u escapes are combined (unpaired surrogates are rejected, since a
Lean Char is a Unicode scalar value). -/
def parseStringRest : Nat → List Char → Option (List Char × List Char)
  | 0, _ => none
  | _ + 1, [] => none
  | fuel + 1, c :: rest =>
    if c == '"' then some ([], rest)
    else if c == '\\' then
      match rest with
      | [] => none
      | e :: rest2 =>
        let simple : Option Char :=
          if e == '"' then some '"'
          else if e == '\\' then some '\\'
          else if e == '/' then some '/'
          else if e == 'b' then some (Char.ofNat 8)
          else if e == 'f' then some (Char.ofNat 12)
          else if e == 'n' then some '\n'
          else if e == 'r' then some '\r'
          else if e == 't' then some '\t'
          else none
        match simple with
        | some ch => (parseStringRest fuel rest2).map (fun p => (ch :: p.1, p.2))
        | none =>
          if e == 'u' then
            match parseHex4 rest2 with
            | none => none
            | some (n, rest3) =>
              if 0xD800 ≤ n ∧ n ≤ 0xDBFF then
                match rest3 with
                | '\\' :: 'u' :: rest4 =>
                  match parseHex4 rest4 with
                  | some (m, rest5) =>
                    if 0xDC00 ≤ m ∧ m ≤ 0xDFFF then
                      let code := 0x10000 + (n - 0xD800) * 0x400 + (m - 0xDC00)
                      (parseStringRest fuel rest5).map
                        (fun p => (Char.ofNat code :: p.1, p.2))
                    else none
                  | none => none
                | _ => none
              else if 0xDC00 ≤ n ∧ n ≤ 0xDFFF then none
              else (parseStringRest fuel rest3).map
                (fun p => (Char.ofNat n :: p.1, p.2))
          else none
    else if c.toNat < 0x20 then none
    else (parseStringRest fuel rest).map (fun p => (c :: p.1, p.2))

/-- Longest digit run at the head of the input, with the rest. -/
def spanDigits (cs : List Char) : List Char × List Char :=
  (cs.takeWhile Char.isDigit, cs.dropWhile Char.isDigit)

/-- Integer part of a JSON number: 0, or a nonzero digit followed by digits. -/
def parseIntPart : List Char → Option (List Char × List Char)
  | '0' :: r => some ([ '0'], r)
  | c :: r =>
    if c.isDigit then
      let (ds, r2) := spanDigits r
      some (c :: ds, r2)
    else none
  | [] => none

/-- Optional fractional part of a JSON number. -/
def parseFrac (cs : List Char) : Option (List Char × List Char) :=
  match cs with
  | '.' :: r =>
    let (ds, r2) := spanDigits r
    if ds.isEmpty then none else some ('.' :: ds, r2)
  | _ => some ([], cs)

/-- Optional exponent part of a JSON number. -/
def parseExp (cs : List Char) : Option (List Char × List Char) :=
  match cs with
  | c :: r =>
    if c == 'e' || c == 'E' then
      let (sgn, r2) :=
        match r with
        | s :: rr => if s == '+' || s == '-' then ([s], rr) else (([] : List Char), r)
        | [] => ([], r)
      let (ds, r3) := spanDigits r2
      if ds.isEmpty then none else some (c :: (sgn ++ ds), r3)
    else some ([], cs)
  | [] => some ([], cs)

/-- Parse a JSON number, returning its literal text. -/
def parseNumber (cs : List Char) : Option (List Char × List Char) :=
  let (neg, cs1) :=
    match cs with
    | '-' :: r => (['-'], r)
    | _ => (([] : List Char), cs)
  match parseIntPart cs1 with
  | none => none
  | some (ip, cs2) =>
    match parseFrac cs2 with
    | none => none
    | some (fp, cs3) =>
      match parseExp cs3 with
      | none => none
      | some (ep, cs4) => some (neg ++ ip ++ fp ++ ep, cs4)

mutual

/-- Parse one JSON value (fuel-indexed recursive-descent parser modelling
json.loads). -/
def parseValue : Nat → List Char → Option (Json × List Char)
  | 0, _ => none
  | fuel + 1, cs =>
    match json_ws cs with
    | [] => none
    | c :: rest =>
      if c == '"' then
        (parseStringRest fuel rest).map (fun p => (Json.str (String.mk p.1), p.2))
      else if c == '[' then
        match json_ws rest with
        | ']' :: r2 => some (Json.arr [], r2)
        | cs2 => (parseElements fuel cs2).map (fun p => (Json.arr p.1, p.2))
      else if c == Char.ofNat 123 then
        match json_ws rest with
        | c2 :: r2 =>
          if c2 == Char.ofNat 125 then some (Json.obj [], r2)
          else
            (parseMembers fuel (c2 :: r2)).map
              (fun p =>
                (Json.obj (p.1.foldl (fun d kv => pySetItem d kv.1 kv.2) []), p.2))
        | [] => none
      else if c == 't' then
        match rest with
        | 'r' :: 'u' :: 'e' :: r => some (Json.bool true, r)
        | _ => none
      else if c == 'f' then
        match rest with
        | 'a' :: 'l' :: 's' :: 'e' :: r => some (Json.bool false, r)
        | _ => none
      else if c == 'n' then
        match rest with
        | 'u' :: 'l' :: 'l' :: r => some (Json.null, r)
        | _ => none
      else
        match parseNumber (c :: rest) with
        | some (lit, r) => some (Json.num (String.mk lit), r)
        | none => none

/-- Parse the elements of a nonempty JSON array up to the closing bracket. -/
def parseElements : Nat → List Char → Option (List Json × List Char)
  | 0, _ => none
  | fuel + 1, cs =>
    match parseValue fuel cs with
    | none => none
    | some (v, r1) =>
      match json_ws r1 with
      | ',' :: r2 => (parseElements fuel r2).map (fun p => (v :: p.1, p.2))
      | ']' :: r2 => some ([v], r2)
      | _ => none

/-- Parse the members of a nonempty JSON object up to the closing brace,
in source order. -/
def parseMembers : Nat → List Char → Option (List (String × Json) × List Char)
  | 0, _ => none
  | fuel + 1, cs =>
    match json_ws cs with
    | '"' :: r1 =>
      match parseStringRest fuel r1 with
      | none => none
      | some (key, r2) =>
        match json_ws r2 with
        | ':' :: r3 =>
          match parseValue fuel r3 with
          | none => none
          | some (v, r4) =>
            match json_ws r4 with
            | ',' :: r5 =>
              (parseMembers fuel r5).map
                (fun p => ((String.mk key, v) :: p.1, p.2))
            | c :: r5 =>
              if c == Char.ofNat 125 then some ([(String.mk key, v)], r5)
              else none
            | [] => none
        | _ => none
    | _ => none

end

/-- Model of json.loads: parse a complete JSON document, rejecting trailing
garbage.  Returns none where json.loads raises JSONDecodeError. -/
def json_loads (s : String) : Option Json :=
  match parseValue (2 * s.length + 2) s.data with
  | some (v, rest) => if (json_ws rest).isEmpty then some v else none
  | none => none

/-- Hexadecimal digit character (lowercase, as emitted by json.dumps). -/
def hexChar (n : Nat) : Char :=
  if n < 10 then Char.ofNat ('0'.toNat + n) else Char.ofNat ('a'.toNat + (n - 10))

/-- Four-digit lowercase hexadecimal rendering of a code unit. -/
def hex4 (n : Nat) : String :=
  String.mk [hexChar (n / 4096 % 16), hexChar (n / 256 % 16),
             hexChar (n / 16 % 16), hexChar (n % 16)]

/-- Escape one character the way json.dumps (ensure_ascii=True) does:
quote, backslash and control characters get two-character escapes, every
non-ASCII character becomes a \u escape (a surrogate pair above U+FFFF). -/
def escapeChar (c : Char) : String :=
  if c == '"' then "\\\""
  else if c == '\\' then "\\\\"
  else if c == '\n' then "\\n"
  else if c == '\r' then "\\r"
  else if c == '\t' then "\\t"
  else if c.toNat == 8 then "\\b"
  else if c.toNat == 12 then "\\f"
  else if c.toNat < 0x20 then "\\u" ++ hex4 c.toNat
  else if c.toNat < 0x7F then String.mk [c]
  else if c.toNat < 0x10000 then "\\u" ++ hex4 c.toNat
  else
    let v := c.toNat - 0x10000
    "\\u" ++ hex4 (0xD800 + v / 0x400) ++ "\\u" ++ hex4 (0xDC00 + v % 0x400)

/-- JSON rendering of a string literal, as json.dumps produces it. -/
def encode_string (s : String) : String :=
  "\"" ++ String.join (s.data.map escapeChar) ++ "\""

mutual

/-- Model of json.dumps with its default separators (comma-space and
colon-space).  Numeric literals are echoed verbatim. -/
def json_dumps : Json → String
  | .null => "null"
  | .bool true => "true"
  | .bool false => "false"
  | .num lit => lit
  | .str s => encode_string s
  | .arr xs => "[" ++ String.intercalate ", " (json_dumps_list xs) ++ "]"
  | .obj kvs =>
    "\x7b" ++ String.intercalate ", " (json_dumps_members kvs) ++ "\x7d"

/-- Renderings of the elements of a JSON array. -/
def json_dumps_list : List Json → List String
  | [] => []
  | x :: xs => json_dumps x :: json_dumps_list xs

/-- Renderings of the members of a JSON object. -/
def json_dumps_members : List (String × Json) → List String
  | [] => []
  | (k, v) :: kvs => (encode_string k ++ ": " ++ json_dumps v) :: json_dumps_members kvs

end

/-! ## mcp_daemon/models.py -/

/-- MCPResponse from mcp_daemon/models.py: status, optional content, optional
error.  (to_dict drops the fields that are None when framing the response.) -/
structure MCPResponse where
  status : String
  content : Option String := none
  error : Option String := none
deriving DecidableEq

/-- One content item of a tool result, as inspected by handle_execute_tool:
the handler reads item.type when the attribute is present (hasattr) and
item.text for text-typed items. -/
structure ContentItem where
  type : Option String
  text : String

/-- Result of ClientSession.call_tool: a list of content items. -/
structure CallToolResult where
  content : List ContentItem

/-- One tool as reported by ClientSession.list_tools. -/
structure Tool where
  name : String
  description : Option String
  inputSchema : Json

/-- One resource template as reported by list_resource_templates. -/
structure ResourceTemplate where
  uriTemplate : String
  name : String
  description : Option String
  mimeType : Option String

/-- One resource as reported by list_resources. -/
structure Resource where
  uri : String
  name : String
  description : Option String
  mimeType : Option String

/-- The MCP SDK ClientSession, embedded as the observable behaviour of its
four operations used by the daemon.  Each operation either returns a result
or raises (Except.error carries the exception message). -/
structure ClientSession where
  call_tool : Json → Json → Except String CallToolResult
  list_tools : Except String (List Tool)
  list_resource_templates : Except String (List ResourceTemplate)
  list_resources : Except String (List Resource)

/-- ServerSession from mcp_daemon/models.py: the session plus its transport
kind tag (the string stdio or sse). -/
structure ServerSession where
  session : ClientSession
  server_type : String

/-- The session registry: the dict of the daemon from server name to session,
modelled as an association list with the dict invariant (no duplicate keys)
carried as a hypothesis where a theorem needs it. -/
abbrev Sessions := List (String × ServerSession)

/-- Python str() of a decoded JSON value, as interpolated into f-string
error messages.  Containers and numbers are approximated (no daemon message
under verification depends on their rendering). -/
def pyStr : Json → String
  | .null => "None"
  | .bool true => "True"
  | .bool false => "False"
  | .num lit => lit
  | .str s => s
  | .arr _ => "[...]"
  | .obj _ => "\x7b...\x7d"

/-- The membership test server_name not in self.sessions as executed by
Python: a string is looked up among the keys, any other hashable value
(None, bool, number) is simply not a key of the string-keyed dict, and an
unhashable value (a decoded array or object) raises TypeError, which
propagates out of the handler to the outer except of handle_request. -/
def sessionMemberE (v : Json) (sessions : Sessions) : Except String Bool :=
  match v with
  | Json.str s => Except.ok (lookupStr s sessions).isSome
  | Json.arr _ => Except.error "unhashable type: \x27list\x27"
  | Json.obj _ => Except.error "unhashable type: \x27dict\x27"
  | _ => Except.ok false

/-- The lookup self.sessions[server_name], defined when the membership test
succeeded. -/
def findSession (v : Json) (sessions : Sessions) : Option ServerSession :=
  match v with
  | Json.str s => lookupStr s sessions
  | _ => none

/-! ## mcp_daemon/handlers.py (class RequestHandler) -/

namespace RequestHandler

/-- RequestHandler.handle_execute_tool: validate server_name and tool_name
(Python truthiness via all), test membership in the registry (which raises
for an unhashable server_name — that test sits outside the handler-local
try), look up the session, invoke the tool, and join the text-typed content
items with newlines; every exception from the tool invocation becomes an
error response, while a membership-test exception propagates to the caller. -/
def handle_execute_tool (sessions : Sessions) (request : List (String × Json)) :
    Except String MCPResponse :=
  let server_name := (lookupStr "server_name" request).getD Json.null
  let tool_name := (lookupStr "tool_name" request).getD Json.null
  let arguments := (lookupStr "arguments" request).getD (Json.obj [])
  if !(server_name.truthy && tool_name.truthy) then
    Except.ok
      ({ status := "error",
         error := some "Missing required fields (server_name, tool_name)" })
  else
    match sessionMemberE server_name sessions with
    | Except.error e => Except.error e
    | Except.ok false =>
      Except.ok
        ({ status := "error",
           error := some ("MCP server \x27" ++ pyStr server_name ++
             "\x27 not found or not connected") })
    | Except.ok true =>
      match findSession server_name sessions with
      | none =>
        -- unreachable: the membership test above succeeded
        Except.ok
          ({ status := "error",
             error := some ("MCP server \x27" ++ pyStr server_name ++
               "\x27 not found or not connected") })
      | some ss =>
        match ss.session.call_tool tool_name arguments with
        | Except.error e =>
          Except.ok
            ({ status := "error",
               error := some ("Error executing MCP tool: " ++ e) })
        | Except.ok result =>
          let text_contents :=
            (result.content.filter (fun item => item.type == some "text")).map
              (fun item => item.text)
          Except.ok
            ({ status := "success",
               content := some (if text_contents.isEmpty then
                   "No text content found in result"
                 else
                   String.intercalate "\n" text_contents) })

/-- RequestHandler.handle_list_servers: JSON-encode the registry keys,
always a success (this handler touches no request field, so it has no
raising path). -/
def handle_list_servers (sessions : Sessions) (_request : List (String × Json)) :
    MCPResponse :=
  { status := "success",
    content := some (json_dumps (Json.arr ((sessions.map Prod.fst).map Json.str))) }

/-- A JSON value with null for a missing optional string, as the handler
dictionaries are built before dumping. -/
def optStr : Option String → Json
  | none => Json.null
  | some s => Json.str s

/-- RequestHandler.handle_list_server_tools; the membership test raises for
an unhashable server_name, outside the handler-local try. -/
def handle_list_server_tools (sessions : Sessions) (request : List (String × Json)) :
    Except String MCPResponse :=
  let server_name := (lookupStr "server_name" request).getD Json.null
  if !server_name.truthy then
    Except.ok
      ({ status := "error", error := some "Missing server_name parameter" })
  else
    match sessionMemberE server_name sessions with
    | Except.error e => Except.error e
    | Except.ok false =>
      Except.ok
        ({ status := "error",
           error := some ("Server \x27" ++ pyStr server_name ++
             "\x27 not found or not connected") })
    | Except.ok true =>
      match findSession server_name sessions with
      | none =>
        Except.ok
          ({ status := "error",
             error := some ("Server \x27" ++ pyStr server_name ++
               "\x27 not found or not connected") })
      | some ss =>
        match ss.session.list_tools with
        | Except.error e =>
          Except.ok
            ({ status := "error",
               error := some ("Error listing tools: " ++ e) })
        | Except.ok tools =>
          Except.ok
            ({ status := "success",
               content := some (json_dumps (Json.arr (tools.map (fun t =>
                 Json.obj [("name", Json.str t.name),
                           ("description", optStr t.description),
                           ("inputSchema", t.inputSchema)])))) })

/-- RequestHandler.handle_list_resource_templates; the membership test
raises for an unhashable server_name, outside the handler-local try. -/
def handle_list_resource_templates (sessions : Sessions)
    (request : List (String × Json)) : Except String MCPResponse :=
  let server_name := (lookupStr "server_name" request).getD Json.null
  if !server_name.truthy then
    Except.ok
      ({ status := "error", error := some "Missing server_name parameter" })
  else
    match sessionMemberE server_name sessions with
    | Except.error e => Except.error e
    | Except.ok false =>
      Except.ok
        ({ status := "error",
           error := some ("Server \x27" ++ pyStr server_name ++
             "\x27 not found or not connected") })
    | Except.ok true =>
      match findSession server_name sessions with
      | none =>
        Except.ok
          ({ status := "error",
             error := some ("Server \x27" ++ pyStr server_name ++
               "\x27 not found or not connected") })
      | some ss =>
        match ss.session.list_resource_templates with
        | Except.error e =>
          Except.ok
            ({ status := "error",
               error := some ("Error listing resource templates: " ++ e) })
        | Except.ok templates =>
          Except.ok
            ({ status := "success",
               content := some (json_dumps (Json.arr (templates.map (fun t =>
                 Json.obj [("uriTemplate", Json.str t.uriTemplate),
                           ("name", Json.str t.name),
                           ("description", optStr t.description),
                           ("mimeType", optStr t.mimeType)])))) })

/-- RequestHandler.handle_list_server_resources; the membership test raises
for an unhashable server_name, outside the handler-local try. -/
def handle_list_server_resources (sessions : Sessions)
    (request : List (String × Json)) : Except String MCPResponse :=
  let server_name := (lookupStr "server_name" request).getD Json.null
  if !server_name.truthy then
    Except.ok
      ({ status := "error", error := some "Missing server_name parameter" })
  else
    match sessionMemberE server_name sessions with
    | Except.error e => Except.error e
    | Except.ok false =>
      Except.ok
        ({ status := "error",
           error := some ("Server \x27" ++ pyStr server_name ++
             "\x27 not found or not connected") })
    | Except.ok true =>
      match findSession server_name sessions with
      | none =>
        Except.ok
          ({ status := "error",
             error := some ("Server \x27" ++ pyStr server_name ++
               "\x27 not found or not connected") })
      | some ss =>
        match ss.session.list_resources with
        | Except.error e =>
          Except.ok
            ({ status := "error",
               error := some ("Error listing resources: " ++ e) })
        | Except.ok resources =>
          Except.ok
            ({ status := "success",
               content := some (json_dumps (Json.arr (resources.map (fun r =>
                 Json.obj [("uri", Json.str r.uri),
                           ("name", Json.str r.name),
                           ("description", optStr r.description),
                           ("mimeType", optStr r.mimeType)])))) })

/-- The outer except of handle_request, applied to the outcome of a
dispatched handler: an exception message e becomes the error response
Error processing request: e. -/
def catch_to_response (r : Except String MCPResponse) : MCPResponse :=
  match r with
  | Except.ok resp => resp
  | Except.error e =>
    { status := "error", error := some ("Error processing request: " ++ e) }

/-- RequestHandler.handle_request: decode the raw message, dispatch on the
type field through the handler table, and convert every failure (malformed
JSON, a non-object request, an unhashable type value, an unknown type, an
exception escaping a handler) into an error response.  The function is
total: no input raises. -/
def handle_request (sessions : Sessions) (message : String) : MCPResponse :=
  match json_loads message with
  | none => { status := "error", error := some "Invalid JSON" }
  | some req =>
    match req with
    | Json.obj kvs =>
      let request_type := (lookupStr "type" kvs).getD Json.null
      match request_type with
      | Json.arr _ =>
        -- handlers.get raises TypeError on an unhashable key; the outer
        -- except converts it
        { status := "error",
          error := some "Error processing request: unhashable type: \x27list\x27" }
      | Json.obj _ =>
        { status := "error",
          error := some "Error processing request: unhashable type: \x27dict\x27" }
      | Json.str t =>
        if t = "execute_tool" then
          catch_to_response (handle_execute_tool sessions kvs)
        else if t = "list_servers" then handle_list_servers sessions kvs
        else if t = "list_server_tools" then
          catch_to_response (handle_list_server_tools sessions kvs)
        else if t = "list_server_resource_templates" then
          catch_to_response (handle_list_resource_templates sessions kvs)
        else if t = "list_server_resources" then
          catch_to_response (handle_list_server_resources sessions kvs)
        else { status := "error", error := some ("Unknown request type: " ++ t) }
      | rt =>
        { status := "error",
          error := some ("Unknown request type: " ++ pyStr rt) }
    | _ =>
      -- request.get on a non-dict raises AttributeError; the outer except
      -- converts it (the concrete str(e) text depends on the decoded type
      -- and is abbreviated here; nothing below relies on it beyond its
      -- fixed Error processing request prefix)
      { status := "error",
        error := some "Error processing request: AttributeError" }

/-- True when the decoded request carries one of the five known type tags;
handle_request dispatches to a handler exactly in this case. -/
def known_request_type : Json → Bool
  | Json.obj kvs =>
    match (lookupStr "type" kvs).getD Json.null with
    | Json.str t =>
      t == "execute_tool" || t == "list_servers" || t == "list_server_tools" ||
        t == "list_server_resource_templates" || t == "list_server_resources"
    | _ => false
  | _ => false

end RequestHandler

/-! ## mcp_daemon/server.py (class MCPDaemonServer) -/

namespace MCPDaemonServer

/-- MCPDaemonServer.handle_client: the per-connection serving loop.  The
input list holds the newline-framed messages read on one connection (the
list end is the end of stream); each iteration dispatches one message
through RequestHandler.handle_request and writes one response. -/
def handle_client (sessions : Sessions) : List String → List MCPResponse
  | [] => []
  | m :: rest =>
    RequestHandler.handle_request sessions m :: handle_client sessions rest

/-- Observable outcome of MCPDaemonServer.stop_server. -/
structure ShutdownResult where
  /-- the listening server was closed (stop accepting connections) -/
  serverClosed : Bool
  /-- one entry per close callback registered on the exit stack, true when
  the callback was invoked during shutdown -/
  sessionsAttemptedClose : List Bool
  /-- AsyncExitStack.aclose re-raised an exception after unwinding -/
  acloseRaised : Bool
  /-- self.sessions.clear() ran -/
  registryCleared : Bool
  /-- the socket file was removed -/
  socketRemoved : Bool
deriving DecidableEq

/-- MCPDaemonServer.stop_server.  Each registered session-close callback is
a Bool (true = closing succeeds, false = it raises).  AsyncExitStack.aclose
invokes every registered callback even when some raise, then re-raises the
pending exception; stop_server does not guard the aclose call, so a
re-raised exception propagates and the statements after it
(self.sessions.clear() and the socket unlink) do not run. -/
def stop_server (running : Bool) (closers : List Bool) (socketExists : Bool) :
    ShutdownResult :=
  if !running then
    { serverClosed := false, sessionsAttemptedClose := closers.map (fun _ => false),
      acloseRaised := false, registryCleared := false, socketRemoved := false }
  else
    let raised := closers.any (fun ok => !ok)
    { serverClosed := true,
      sessionsAttemptedClose := closers.map (fun _ => true),
      acloseRaised := raised,
      registryCleared := !raised,
      socketRemoved := !raised && socketExists }

end MCPDaemonServer

/-! ## daemon_client/connection_pool.py (class ConnectionPool) -/

namespace ConnectionPool

/-- Pool state: the active-connection counter (a Python int, so it can in
principle go negative on spurious releases) and the number of idle
connections sitting in the available_connections queue. -/
structure PoolState where
  active_connections : Int
  available_connections : Nat
deriving DecidableEq

/-- Atomic transitions of the pool.  Each constructor is one lock-protected
or queue-atomic section of get_connection / release_connection, which is the
granularity at which concurrent callers interleave under the asyncio
event loop:
acquire_idle takes a queued idle connection (the initial wait_for branch or
the blocking get when the pool is full); acquire_new_ok is the locked
counter check, increment and successful socket open; acquire_new_fail is
the same section when the open raises (increment then decrement under the
same lock, net zero); release_open puts a healthy connection back on the
queue; release_closing is the locked decrement for a closing connection. -/
inductive Op where
  | acquire_idle
  | acquire_new_ok
  | acquire_new_fail
  | release_open
  | release_closing

/-- One transition of the pool state. -/
def step (pool_size : Nat) (s : PoolState) : Op → PoolState
  | .acquire_idle =>
    if 0 < s.available_connections then
      { s with available_connections := s.available_connections - 1 }
    else s
  | .acquire_new_ok =>
    if s.active_connections < pool_size then
      { s with active_connections := s.active_connections + 1 }
    else s
  | .acquire_new_fail => s
  | .release_open =>
    { s with available_connections := s.available_connections + 1 }
  | .release_closing =>
    { s with active_connections := s.active_connections - 1 }

/-- Run a sequence of interleaved pool operations from the freshly
constructed pool (zero active, empty queue). -/
def run (pool_size : Nat) (ops : List Op) : PoolState :=
  ops.foldl (step pool_size) { active_connections := 0, available_connections := 0 }

end ConnectionPool

/-! ## mcp_daemon/stdio.py (class StdioManager) -/

namespace StdioManager

/-- The StdioServerParameters passed to the MCP SDK stdio_client: the
spawned command, its arguments, and the environment of the child process. -/
structure StdioServerParameters where
  command : String
  args : List String
  env : List (String × String)
deriving DecidableEq

/-- The parameter-building part of StdioManager.connect: result_env is a
copy of os.environ updated with the config env overrides (dict.update, so a
config entry wins on key collision), and args defaults to the empty list. -/
def spawn_params (os_environ : List (String × String)) (command : String)
    (args : Option (List String)) (env : List (String × String)) :
    StdioServerParameters :=
  { command := command,
    args := args.getD [],
    env := dict_update os_environ env }

end StdioManager

/-! ## daemon_client/models.py (class DaemonResponse) -/

/-- DaemonResponse from daemon_client/models.py.  The daemon wire protocol
carries content as a string (or omits it), so content is modelled as an
optional string. -/
structure DaemonResponse where
  status : String
  content : Option String := none
  error : Option String := none
deriving DecidableEq

namespace DaemonResponse

/-- DaemonResponse.is_success: the status is exactly the string success. -/
def is_success (r : DaemonResponse) : Bool :=
  r.status == "success"

/-- DaemonResponse.get_parsed_content: None for falsy content (absent or
empty string); otherwise the JSON-decoded content, or the original string
when it is not valid JSON.  The result models the Python return value:
none is Python None, Json.str s is the string itself. -/
def get_parsed_content (r : DaemonResponse) : Option Json :=
  match r.content with
  | none => none
  | some s =>
    if s == "" then none
    else
      match json_loads s with
      | some v => some v
      | none => some (Json.str s)

end DaemonResponse

/-! ## daemon_client/main.py (class MCPDaemonClient) -/

namespace MCPDaemonClient

/-- The fast-path error response built by _send_request when the daemon
socket path does not exist. -/
def socket_not_found_response : DaemonResponse :=
  { status := "error",
    error := some "MCP daemon socket not found. Make sure the daemon is running." }

/-- Observable outcome of one _send_request call: the response handed back,
and whether a pooled connection was acquired at all. -/
structure SendAttempt where
  response : DaemonResponse
  used_pool : Bool
deriving DecidableEq

/-- MCPDaemonClient._send_request: before any pool or socket activity the
socket path is checked; when it is missing the descriptive error response
returns immediately.  Otherwise the request/response exchange runs over a
pooled connection (the chunked read with its timeout handling is abstracted
as the exchange outcome, which is itself a DaemonResponse: either the parsed
daemon reply or one of the client-local timeout errors). -/
def send_request (socket_exists : Bool) (exchange : Unit → DaemonResponse) :
    SendAttempt :=
  if socket_exists then
    { response := exchange (), used_pool := true }
  else
    { response := socket_not_found_response, used_pool := false }

/-- MCPDaemonClient.list_servers, given the response obtained from
_send_request: unwrap a success into the parsed content, and any
non-success into the empty list.  (none is Python None.) -/
def list_servers (resp : DaemonResponse) : Option Json :=
  if resp.is_success then resp.get_parsed_content else some (Json.arr [])

/-- MCPDaemonClient.list_server_tools, same unwrapping. -/
def list_server_tools (resp : DaemonResponse) : Option Json :=
  if resp.is_success then resp.get_parsed_content else some (Json.arr [])

/-- MCPDaemonClient.list_server_resource_templates, same unwrapping. -/
def list_server_resource_templates (resp : DaemonResponse) : Option Json :=
  if resp.is_success then resp.get_parsed_content else some (Json.arr [])

/-- MCPDaemonClient.list_server_resources, same unwrapping. -/
def list_server_resources (resp : DaemonResponse) : Option Json :=
  if resp.is_success then resp.get_parsed_content else some (Json.arr [])

end MCPDaemonClient


/-! ## Helper lemmas -/

/-- Lookup after the in-place replacement pass of pySetItem. -/
theorem lookupStr_map_set {α : Type} (d : List (String × α)) (k : String) (v : α)
    (q : String) :
    lookupStr q (d.map (fun p => if p.1 == k then (k, v) else p)) =
      if q = k then (lookupStr k d).map (fun _ => v) else lookupStr q d := by
  induction d with
  | nil => by_cases hq : q = k <;> simp [lookupStr, hq]
  | cons p rest ih =>
    simp only [beq_iff_eq] at ih
    by_cases hp : p.1 = k
    · by_cases hq : q = k
      · subst hq; simp [lookupStr, hp, ih]
      · have hkq : ¬(k = q) := fun hc => hq hc.symm
        have hpq : ¬(p.1 = q) := by rw [hp]; exact hkq
        simp [lookupStr, hp, hq, hkq, hpq, ih]
    · by_cases hq : q = k
      · subst hq
        have hpq : ¬(p.1 = q) := hp
        simp [lookupStr, hp, hpq, ih]
      · by_cases hpq : p.1 = q
        · simp [lookupStr, hp, hq, hpq, ih]
        · simp [lookupStr, hp, hq, hpq, ih]

/-- The any-scan of pySetItem agrees with lookup success. -/
theorem any_key_eq_lookupStr_isSome {α : Type} (d : List (String × α)) (k : String) :
    d.any (fun p => p.1 == k) = (lookupStr k d).isSome := by
  induction d with
  | nil => simp [lookupStr]
  | cons p rest ih =>
    by_cases hp : p.1 = k
    · simp [lookupStr, hp]
    · simp [lookupStr, hp, ih]

/-- Lookup in a list extended on the right with a single pair. -/
theorem lookupStr_append_single {α : Type} (d : List (String × α)) (k : String)
    (v : α) (q : String) :
    lookupStr q (d ++ [(k, v)]) =
      match lookupStr q d with
      | some w => some w
      | none => if q = k then some v else none := by
  induction d with
  | nil =>
    by_cases hq : q = k
    · simp [lookupStr, hq]
    · have hkq : ¬(k = q) := fun hc => hq hc.symm
      simp [lookupStr, hq, hkq]
  | cons p rest ih =>
    by_cases hpq : p.1 = q
    · simp [lookupStr, hpq]
    · simp [lookupStr, hpq, ih]

/-- Lookup after a Python dict item assignment: the assigned key maps to the
new value, every other key is untouched. -/
theorem lookupStr_pySetItem {α : Type} (d : List (String × α)) (k : String) (v : α)
    (q : String) :
    lookupStr q (pySetItem d k v) = if q = k then some v else lookupStr q d := by
  unfold pySetItem
  by_cases hany : d.any (fun p => p.1 == k)
  · rw [if_pos hany, lookupStr_map_set]
    have hsome : (lookupStr k d).isSome := by
      rw [← any_key_eq_lookupStr_isSome]; exact hany
    by_cases hq : q = k
    · subst hq
      obtain ⟨w, hw⟩ := Option.isSome_iff_exists.mp hsome
      simp [hw]
    · simp [hq]
  · rw [if_neg hany, lookupStr_append_single]
    have hnone : lookupStr k d = none := by
      cases hl : lookupStr k d with
      | none => rfl
      | some w =>
        exact absurd (by rw [any_key_eq_lookupStr_isSome, hl]; rfl) hany
    by_cases hq : q = k
    · subst hq; simp [hnone]
    · cases List.lookup q d <;> simp [hq] <;> cases lookupStr q d <;> simp

/-- A key absent from the key list of an association list has no binding. -/
theorem lookupStr_none_of_not_mem_keys {α : Type} (d : List (String × α))
    (k : String) (h : k ∉ d.map Prod.fst) : lookupStr k d = none := by
  induction d with
  | nil => rfl
  | cons p rest ih =>
    simp only [List.map_cons, List.mem_cons] at h
    push_neg at h
    have hp : ¬(p.1 = k) := fun hc => h.1 hc.symm
    simp [lookupStr, hp, ih h.2]

/-- Lookup through dict.update: a key bound by the update wins, every other
key falls through to the original dict.  The update source is a Python dict,
so it has no duplicate keys. -/
theorem lookupStr_dict_update {α : Type} (d other : List (String × α))
    (h : (other.map Prod.fst).Nodup) (q : String) :
    lookupStr q (dict_update d other) =
      match lookupStr q other with
      | some v => some v
      | none => lookupStr q d := by
  induction other generalizing d with
  | nil => simp [dict_update, lookupStr]
  | cons kv rest ih =>
    obtain ⟨k0, v0⟩ := kv
    simp only [List.map_cons, List.nodup_cons] at h
    have hupd : dict_update d ((k0, v0) :: rest) = dict_update (pySetItem d k0 v0) rest := rfl
    rw [hupd, ih _ h.2]
    by_cases hq : q = k0
    · subst hq
      have hrest : lookupStr q rest = none := lookupStr_none_of_not_mem_keys _ _ h.1
      simp [hrest, lookupStr, lookupStr_pySetItem]
    · have hkq : ¬(k0 = q) := fun hc => hq hc.symm
      cases hrest : lookupStr q rest <;>
        simp [lookupStr, hkq, hrest, lookupStr_pySetItem, hq]

/-- A string is not obtained by extending p when its head disagrees with p. -/
theorem append_ne_of_take_ne (p s : String)
    (h : s.data.take p.data.length ≠ p.data) (t : String) : p ++ t ≠ s := by
  intro heq
  apply h
  rw [← heq, String.data_append, List.take_left]

/-- Bound preservation of a single pool transition. -/
theorem pool_step_active_le (pool_size : Nat) (s : ConnectionPool.PoolState)
    (op : ConnectionPool.Op) (h : s.active_connections ≤ (pool_size : Int)) :
    (ConnectionPool.step pool_size s op).active_connections ≤ (pool_size : Int) := by
  cases op with
  | acquire_idle =>
    by_cases h0 : 0 < s.available_connections <;> simp [ConnectionPool.step, h0, h]
  | acquire_new_ok =>
    by_cases h0 : s.active_connections < (pool_size : Int)
    · simp only [ConnectionPool.step, if_pos h0]
      omega
    · simp [ConnectionPool.step, h0, h]
  | acquire_new_fail => simpa [ConnectionPool.step] using h
  | release_open => simpa [ConnectionPool.step] using h
  | release_closing =>
    simp only [ConnectionPool.step]
    omega

/-- Bound preservation along any operation sequence. -/
theorem pool_foldl_active_le (pool_size : Nat) (ops : List ConnectionPool.Op) :
    ∀ s : ConnectionPool.PoolState, s.active_connections ≤ (pool_size : Int) →
      (List.foldl (ConnectionPool.step pool_size) s ops).active_connections
        ≤ (pool_size : Int) := by
  induction ops with
  | nil => intro s h; exact h
  | cons op rest ih =>
    intro s h
    exact ih _ (pool_step_active_le pool_size s op h)

/-! ## Claim theorems -/

/-- C1: during stop_server, when the first of two registered session-close
callbacks raises, the exit stack still invokes every callback, but the
exception re-raised by AsyncExitStack.aclose propagates out of stop_server,
so the registry is never cleared and the socket file is never removed —
the shutdown sequence does not run to completion as the claim states. -/
theorem MCPDaemonServer.stop_server_close_failure :
    MCPDaemonServer.stop_server true [false, true] true =
      { serverClosed := true, sessionsAttemptedClose := [true, true],
        acloseRaised := true, registryCleared := false, socketRemoved := false } := by
  decide

/-- C5: over every sequence of interleaved get_connection and
release_connection transitions, the active-connection counter never exceeds
pool_size, and the release of a connection whose writer reports closing
decrements the counter by exactly one. -/
theorem ConnectionPool.active_connections_invariant (pool_size : Nat) :
    (∀ ops : List ConnectionPool.Op,
      (ConnectionPool.run pool_size ops).active_connections ≤ (pool_size : Int)) ∧
    (∀ s : ConnectionPool.PoolState,
      (ConnectionPool.step pool_size s
        ConnectionPool.Op.release_closing).active_connections
          = s.active_connections - 1) := by
  constructor
  · intro ops
    exact pool_foldl_active_le pool_size ops _ (by simp)
  · intro s
    simp [ConnectionPool.step]

/-- C7: the environment StdioManager.connect hands to the spawned server
process is the process environment updated with the config env overrides:
a key bound by the config wins, every other key keeps its os.environ
binding. -/
theorem StdioManager.connect_env_merge (os_environ env : List (String × String))
    (command : String) (args : Option (List String)) (k : String)
    (h : (env.map Prod.fst).Nodup) :
    lookupStr k (StdioManager.spawn_params os_environ command args env).env =
      match lookupStr k env with
      | some v => some v
      | none => lookupStr k os_environ := by
  have h2 := lookupStr_dict_update os_environ env h k
  show lookupStr k (dict_update os_environ env) = _
  rw [h2]
  cases lookupStr k env <;> rfl

/-- Witness for C7 at a concrete collision: the config binding of PATH wins
and the untouched HOME binding falls through from the process environment. -/
theorem StdioManager.connect_env_merge_witness :
    lookupStr "PATH"
      (StdioManager.spawn_params [("PATH", "/usr/bin"), ("HOME", "/root")]
        "node" none [("PATH", "/custom")]).env = some "/custom" ∧
    lookupStr "HOME"
      (StdioManager.spawn_params [("PATH", "/usr/bin"), ("HOME", "/root")]
        "node" none [("PATH", "/custom")]).env = some "/root" := by
  constructor
  · exact (StdioManager.connect_env_merge [("PATH", "/usr/bin"), ("HOME", "/root")]
      [("PATH", "/custom")] "node" none "PATH" (by decide)).trans rfl
  · exact (StdioManager.connect_env_merge [("PATH", "/usr/bin"), ("HOME", "/root")]
      [("PATH", "/custom")] "node" none "HOME" (by decide)).trans rfl

/-- A connected session whose tool returns the two text content items Sunny
and 72F (the Scenario B session of the spec). -/
def weather_session : ServerSession :=
  { session :=
      { call_tool := fun _ _ => Except.ok
          { content := [ { type := some "text", text := "Sunny" },
                         { type := some "text", text := "72F" } ] },
        list_tools := Except.ok [],
        list_resource_templates := Except.ok [],
        list_resources := Except.ok [] },
    server_type := "stdio" }

/-- C4: a raw message that is not valid JSON, or that decodes to a request
without one of the five known type tags, is answered with an error-status
response (handle_request is total, so nothing is raised), and the serving
loop goes on to handle the next message of the same connection. -/
theorem RequestHandler.malformed_or_unknown_type_is_error
    (sessions : Sessions) (msg : String) (rest : List String)
    (h : json_loads msg = none ∨
      ∃ req, json_loads msg = some req ∧
        RequestHandler.known_request_type req = false) :
    (RequestHandler.handle_request sessions msg).status = "error" ∧
    MCPDaemonServer.handle_client sessions (msg :: rest) =
      RequestHandler.handle_request sessions msg ::
        MCPDaemonServer.handle_client sessions rest := by
  refine ⟨?_, rfl⟩
  rcases h with h | ⟨req, hr, hk⟩
  · simp [RequestHandler.handle_request, h]
  · unfold RequestHandler.handle_request
    cases req with
    | obj kvs =>
      simp only [RequestHandler.known_request_type] at hk
      simp only [hr]
      cases hrt : (lookupStr "type" kvs).getD Json.null with
      | str t =>
        rw [hrt] at hk
        simp only [Bool.or_eq_false_iff, beq_eq_false_iff_ne, ne_eq] at hk
        obtain ⟨⟨⟨⟨k1, k2⟩, k3⟩, k4⟩, k5⟩ := hk
        simp [hrt, k1, k2, k3, k4, k5]
      | null => simp [hrt]
      | bool b => simp [hrt]
      | num n => simp [hrt]
      | arr l => simp [hrt]
      | obj l => simp [hrt]
    | null => simp [hr]
    | bool b => simp [hr]
    | num n => simp [hr]
    | str s => simp [hr]
    | arr l => simp [hr]

/-- Witness for C4: an unparseable message and a message with an unknown
type tag are both answered with an error and the loop moves on. -/
theorem RequestHandler.malformed_or_unknown_type_is_error_witness :
    ((RequestHandler.handle_request [] "not json").status = "error" ∧
      MCPDaemonServer.handle_client [] ["not json", "\x7b\"type\": \"bogus\"\x7d"] =
        RequestHandler.handle_request [] "not json" ::
          MCPDaemonServer.handle_client [] ["\x7b\"type\": \"bogus\"\x7d"]) ∧
    ((RequestHandler.handle_request [] "\x7b\"type\": \"bogus\"\x7d").status = "error" ∧
      MCPDaemonServer.handle_client [] ["\x7b\"type\": \"bogus\"\x7d"] =
        RequestHandler.handle_request [] "\x7b\"type\": \"bogus\"\x7d" ::
          MCPDaemonServer.handle_client [] []) := by
  constructor
  · exact RequestHandler.malformed_or_unknown_type_is_error []
      "not json" ["\x7b\"type\": \"bogus\"\x7d"] (Or.inl rfl)
  · exact RequestHandler.malformed_or_unknown_type_is_error []
      "\x7b\"type\": \"bogus\"\x7d" []
      (Or.inr ⟨Json.obj [("type", Json.str "bogus")], rfl, rfl⟩)

/-- C6: a list_servers request is always answered with status success whose
content is the JSON encoding of exactly the registry keys (which, as the
keys of a dict, hold no duplicate); the empty registry encodes to the empty
array. -/
theorem RequestHandler.list_servers_encodes_registry_keys
    (sessions : Sessions) (msg : String) (kvs : List (String × Json))
    (hmsg : json_loads msg = some (Json.obj kvs))
    (hty : lookupStr "type" kvs = some (Json.str "list_servers"))
    (hnd : (sessions.map Prod.fst).Nodup) :
    (RequestHandler.handle_request sessions msg).status = "success" ∧
    (RequestHandler.handle_request sessions msg).content =
      some (json_dumps (Json.arr ((sessions.map Prod.fst).map Json.str))) ∧
    (sessions.map Prod.fst).Nodup ∧
    (sessions = [] →
      (RequestHandler.handle_request sessions msg).content = some "[]") := by
  have hred : RequestHandler.handle_request sessions msg =
      RequestHandler.handle_list_servers sessions kvs := by
    unfold RequestHandler.handle_request
    rw [hmsg]
    simp [hty]
  rw [hred]
  refine ⟨rfl, rfl, hnd, ?_⟩
  intro h
  subst h
  rfl

/-- Witness for C6: a one-session registry encodes its single key, and the
empty registry of Scenario A encodes the empty array. -/
theorem RequestHandler.list_servers_encodes_registry_keys_witness :
    (RequestHandler.handle_request [("weather", weather_session)]
        "\x7b\"type\": \"list_servers\"\x7d").status = "success" ∧
    (RequestHandler.handle_request [("weather", weather_session)]
        "\x7b\"type\": \"list_servers\"\x7d").content = some "[\"weather\"]" ∧
    (RequestHandler.handle_request [] "\x7b\"type\": \"list_servers\"\x7d").content
      = some "[]" := by
  have h1 := RequestHandler.list_servers_encodes_registry_keys
    [("weather", weather_session)] "\x7b\"type\": \"list_servers\"\x7d"
    [("type", Json.str "list_servers")] rfl rfl (by decide)
  have h2 := RequestHandler.list_servers_encodes_registry_keys
    [] "\x7b\"type\": \"list_servers\"\x7d"
    [("type", Json.str "list_servers")] rfl rfl (by decide)
  exact ⟨h1.1, h1.2.1.trans rfl, h2.2.2.2 rfl⟩

/-- String concatenation associates. -/
theorem string_append_assoc (a b c : String) : (a ++ b) ++ c = a ++ (b ++ c) := by
  apply String.ext
  simp [String.data_append, List.append_assoc]

/-- No execute_tool response carries the client-local socket-missing text,
whether the handler returns a response or raises into the outer except. -/
theorem handle_execute_tool_error_ne_socket (sessions : Sessions)
    (kvs : List (String × Json)) :
    (RequestHandler.catch_to_response
        (RequestHandler.handle_execute_tool sessions kvs)).error ≠
      some "MCP daemon socket not found. Make sure the daemon is running." := by
  unfold RequestHandler.handle_execute_tool
  dsimp only
  split
  · simp only [RequestHandler.catch_to_response, ne_eq, Option.some.injEq]
    decide
  · split
    · simp only [RequestHandler.catch_to_response, ne_eq, Option.some.injEq]
      exact append_ne_of_take_ne "Error processing request: " _ (by decide) _
    · simp only [RequestHandler.catch_to_response, ne_eq, Option.some.injEq]
      rw [string_append_assoc]
      exact append_ne_of_take_ne "MCP server \x27" _ (by decide) _
    · split
      · simp only [RequestHandler.catch_to_response, ne_eq, Option.some.injEq]
        rw [string_append_assoc]
        exact append_ne_of_take_ne "MCP server \x27" _ (by decide) _
      · split
        · simp only [RequestHandler.catch_to_response, ne_eq, Option.some.injEq]
          exact append_ne_of_take_ne "Error executing MCP tool: " _ (by decide) _
        · simp [RequestHandler.catch_to_response]

/-- No list_server_tools response carries the socket-missing text. -/
theorem handle_list_server_tools_error_ne_socket (sessions : Sessions)
    (kvs : List (String × Json)) :
    (RequestHandler.catch_to_response
        (RequestHandler.handle_list_server_tools sessions kvs)).error ≠
      some "MCP daemon socket not found. Make sure the daemon is running." := by
  unfold RequestHandler.handle_list_server_tools
  dsimp only
  split
  · simp only [RequestHandler.catch_to_response, ne_eq, Option.some.injEq]
    decide
  · split
    · simp only [RequestHandler.catch_to_response, ne_eq, Option.some.injEq]
      exact append_ne_of_take_ne "Error processing request: " _ (by decide) _
    · simp only [RequestHandler.catch_to_response, ne_eq, Option.some.injEq]
      rw [string_append_assoc]
      exact append_ne_of_take_ne "Server \x27" _ (by decide) _
    · split
      · simp only [RequestHandler.catch_to_response, ne_eq, Option.some.injEq]
        rw [string_append_assoc]
        exact append_ne_of_take_ne "Server \x27" _ (by decide) _
      · split
        · simp only [RequestHandler.catch_to_response, ne_eq, Option.some.injEq]
          exact append_ne_of_take_ne "Error listing tools: " _ (by decide) _
        · simp [RequestHandler.catch_to_response]

/-- No list_server_resource_templates response carries the socket-missing
text. -/
theorem handle_list_resource_templates_error_ne_socket (sessions : Sessions)
    (kvs : List (String × Json)) :
    (RequestHandler.catch_to_response
        (RequestHandler.handle_list_resource_templates sessions kvs)).error ≠
      some "MCP daemon socket not found. Make sure the daemon is running." := by
  unfold RequestHandler.handle_list_resource_templates
  dsimp only
  split
  · simp only [RequestHandler.catch_to_response, ne_eq, Option.some.injEq]
    decide
  · split
    · simp only [RequestHandler.catch_to_response, ne_eq, Option.some.injEq]
      exact append_ne_of_take_ne "Error processing request: " _ (by decide) _
    · simp only [RequestHandler.catch_to_response, ne_eq, Option.some.injEq]
      rw [string_append_assoc]
      exact append_ne_of_take_ne "Server \x27" _ (by decide) _
    · split
      · simp only [RequestHandler.catch_to_response, ne_eq, Option.some.injEq]
        rw [string_append_assoc]
        exact append_ne_of_take_ne "Server \x27" _ (by decide) _
      · split
        · simp only [RequestHandler.catch_to_response, ne_eq, Option.some.injEq]
          exact append_ne_of_take_ne "Error listing resource templates: " _ (by decide) _
        · simp [RequestHandler.catch_to_response]

/-- No list_server_resources response carries the socket-missing text. -/
theorem handle_list_server_resources_error_ne_socket (sessions : Sessions)
    (kvs : List (String × Json)) :
    (RequestHandler.catch_to_response
        (RequestHandler.handle_list_server_resources sessions kvs)).error ≠
      some "MCP daemon socket not found. Make sure the daemon is running." := by
  unfold RequestHandler.handle_list_server_resources
  dsimp only
  split
  · simp only [RequestHandler.catch_to_response, ne_eq, Option.some.injEq]
    decide
  · split
    · simp only [RequestHandler.catch_to_response, ne_eq, Option.some.injEq]
      exact append_ne_of_take_ne "Error processing request: " _ (by decide) _
    · simp only [RequestHandler.catch_to_response, ne_eq, Option.some.injEq]
      rw [string_append_assoc]
      exact append_ne_of_take_ne "Server \x27" _ (by decide) _
    · split
      · simp only [RequestHandler.catch_to_response, ne_eq, Option.some.injEq]
        rw [string_append_assoc]
        exact append_ne_of_take_ne "Server \x27" _ (by decide) _
      · split
        · simp only [RequestHandler.catch_to_response, ne_eq, Option.some.injEq]
          exact append_ne_of_take_ne "Error listing resources: " _ (by decide) _
        · simp [RequestHandler.catch_to_response]

/-- C8: with the daemon socket path absent, _send_request returns the
descriptive daemon-not-running error immediately, without acquiring a pooled
connection; and that error text is distinguishable from every response a
running daemon can produce, since no handle_request output ever carries it. -/
theorem MCPDaemonClient.send_request_socket_missing_fast_path
    (exchange : Unit → DaemonResponse) :
    MCPDaemonClient.send_request false exchange =
      { response := MCPDaemonClient.socket_not_found_response,
        used_pool := false } ∧
    ∀ (sessions : Sessions) (msg : String),
      (RequestHandler.handle_request sessions msg).error ≠
        some "MCP daemon socket not found. Make sure the daemon is running." := by
  refine ⟨rfl, ?_⟩
  intro sessions msg
  unfold RequestHandler.handle_request
  cases hjs : json_loads msg with
  | none =>
    dsimp only
    simp only [ne_eq, Option.some.injEq]
    decide
  | some req =>
    cases req with
    | obj kvs =>
      dsimp only
      cases hrt : (lookupStr "type" kvs).getD Json.null with
      | str t =>
        dsimp only
        split_ifs
        · exact handle_execute_tool_error_ne_socket sessions kvs
        · simp [RequestHandler.handle_list_servers]
        · exact handle_list_server_tools_error_ne_socket sessions kvs
        · exact handle_list_resource_templates_error_ne_socket sessions kvs
        · exact handle_list_server_resources_error_ne_socket sessions kvs
        · simp only [ne_eq, Option.some.injEq]
          exact append_ne_of_take_ne "Unknown request type: "
            "MCP daemon socket not found. Make sure the daemon is running."
            (by decide) t
      | null =>
        dsimp only
        simp only [ne_eq, Option.some.injEq]
        exact append_ne_of_take_ne "Unknown request type: "
          "MCP daemon socket not found. Make sure the daemon is running."
          (by decide) (pyStr Json.null)
      | bool b =>
        dsimp only
        simp only [ne_eq, Option.some.injEq]
        exact append_ne_of_take_ne "Unknown request type: "
          "MCP daemon socket not found. Make sure the daemon is running."
          (by decide) (pyStr (Json.bool b))
      | num n =>
        dsimp only
        simp only [ne_eq, Option.some.injEq]
        exact append_ne_of_take_ne "Unknown request type: "
          "MCP daemon socket not found. Make sure the daemon is running."
          (by decide) (pyStr (Json.num n))
      | arr l =>
        dsimp only
        simp only [ne_eq, Option.some.injEq]
        decide
      | obj l =>
        dsimp only
        simp only [ne_eq, Option.some.injEq]
        decide
    | null =>
      dsimp only
      simp only [ne_eq, Option.some.injEq]
      decide
    | bool b =>
      dsimp only
      simp only [ne_eq, Option.some.injEq]
      decide
    | num n =>
      dsimp only
      simp only [ne_eq, Option.some.injEq]
      decide
    | str s =>
      dsimp only
      simp only [ne_eq, Option.some.injEq]
      decide
    | arr l =>
      dsimp only
      simp only [ne_eq, Option.some.injEq]
      decide

/-- Witness for C8: a concrete missing-socket send and a concrete daemon
response differing from the fast-path error. -/
theorem MCPDaemonClient.send_request_socket_missing_fast_path_witness :
    MCPDaemonClient.send_request false (fun _ => { status := "success" }) =
      { response := MCPDaemonClient.socket_not_found_response,
        used_pool := false } ∧
    (RequestHandler.handle_request [] "\x7b\"type\": \"list_servers\"\x7d").error ≠
      some "MCP daemon socket not found. Make sure the daemon is running." := by
  have h := MCPDaemonClient.send_request_socket_missing_fast_path
    (fun _ => { status := "success" })
  exact ⟨h.1, h.2 [] "\x7b\"type\": \"list_servers\"\x7d"⟩

/-- C9: each client list-type convenience operation unwraps a non-success
response (daemon-produced or client-local, such as the missing-socket fast
path) into the empty list, and a success response into the parsed content. -/
theorem MCPDaemonClient.list_ops_unwrap (resp : DaemonResponse)
    (exchange : Unit → DaemonResponse) :
    (resp.status ≠ "success" →
      MCPDaemonClient.list_servers resp = some (Json.arr []) ∧
      MCPDaemonClient.list_server_tools resp = some (Json.arr []) ∧
      MCPDaemonClient.list_server_resource_templates resp = some (Json.arr []) ∧
      MCPDaemonClient.list_server_resources resp = some (Json.arr [])) ∧
    (resp.status = "success" →
      MCPDaemonClient.list_servers resp = resp.get_parsed_content ∧
      MCPDaemonClient.list_server_tools resp = resp.get_parsed_content ∧
      MCPDaemonClient.list_server_resource_templates resp = resp.get_parsed_content ∧
      MCPDaemonClient.list_server_resources resp = resp.get_parsed_content) ∧
    MCPDaemonClient.list_servers
      (MCPDaemonClient.send_request false exchange).response = some (Json.arr []) := by
  refine ⟨?_, ?_, rfl⟩
  · intro h
    have hs : resp.is_success = false := by
      simp [DaemonResponse.is_success, h]
    simp [MCPDaemonClient.list_servers, MCPDaemonClient.list_server_tools,
      MCPDaemonClient.list_server_resource_templates,
      MCPDaemonClient.list_server_resources, hs]
  · intro h
    have hs : resp.is_success = true := by
      simp [DaemonResponse.is_success, h]
    simp [MCPDaemonClient.list_servers, MCPDaemonClient.list_server_tools,
      MCPDaemonClient.list_server_resource_templates,
      MCPDaemonClient.list_server_resources, hs]

/-- Witness for C9: a timeout-style error unwraps to the empty list on two
of the operations, a success response unwraps to its parsed content, and
the missing-socket fast path unwraps to the empty list. -/
theorem MCPDaemonClient.list_ops_unwrap_witness :
    MCPDaemonClient.list_servers
      { status := "error",
        error := some "Timeout waiting for response from MCP daemon" } =
      some (Json.arr []) ∧
    MCPDaemonClient.list_server_tools
      { status := "error",
        error := some "Timeout waiting for response from MCP daemon" } =
      some (Json.arr []) ∧
    MCPDaemonClient.list_servers
      { status := "success", content := some "[\"weather\"]" } =
      DaemonResponse.get_parsed_content
        { status := "success", content := some "[\"weather\"]" } ∧
    MCPDaemonClient.list_servers
      (MCPDaemonClient.send_request false
        (fun _ => { status := "success" })).response = some (Json.arr []) := by
  have h1 := MCPDaemonClient.list_ops_unwrap
    { status := "error",
      error := some "Timeout waiting for response from MCP daemon" }
    (fun _ => { status := "success" })
  have h2 := MCPDaemonClient.list_ops_unwrap
    { status := "success", content := some "[\"weather\"]" }
    (fun _ => { status := "success" })
  exact ⟨(h1.1 (by decide)).1, (h1.1 (by decide)).2.1, (h2.2.1 rfl).1, h1.2.2⟩

